import Mathlib

/-!
Verification of the Split/Order reservation and lifecycle engine of the
express-stripe-graphql repository.  The definitions below are a shallow
embedding of src/api/index.js (SplitDataSource, OrderDataSource) and
src/api/services/stripe.js.  External collaborators (Stripe gateway,
Twilio conversation service) are modelled as an environment record plus
an effect log, following the collaborator contracts the source calls.
JavaScript numbers on counter fields are modelled as Int (they can go
negative), money as rationals.  Error messages thrown by the source are
modelled as constructors of an error type, one per throw site.
-/

/-- SplitType from src/api/index.js: APP and LEGACY variants. -/
inductive SplitType
  | APP
  | LEGACY
deriving Repr, DecidableEq

/-- SplitStatus from src/api/index.js. -/
inductive SplitStatus
  | ACTIVE
  | FILLED
  | EXPIRED
  | CANCELLED
  | COMPLETE
deriving Repr, DecidableEq

/-- SplitRoomMessageTypes from src/api/index.js: the messageType attribute of
each system message posted to a Split conversation. -/
inductive SplitRoomMessageTypes
  | CLIENT_JOINED
  | CLIENT_EXITED
  | EXPIRATION_NOTICE
  | SPLIT_CREATED
  | SPLIT_CANCELLED
  | SPLIT_COMPLETED
  | SPLIT_RESET
  | SPLIT_EXTENDED
deriving Repr, DecidableEq

/-- OrderStatusType from src/api/index.js. -/
inductive OrderStatusType
  | payment_pending
  | payment_failed
  | paid
  | system_canceled
  | owner_canceled
  | client_canceled
  | refund_requested
  | complete
  | refunded
  | shipped
  | received
deriving Repr, DecidableEq

/-- StripePaymentStatusType from src/api/services/stripe.js. -/
inductive StripePaymentStatusType
  | requires_payment_method
  | requires_confirmation
  | requires_action
  | payment_failed
  | processing
  | canceled
  | succeeded
deriving Repr, DecidableEq

/-- UserRole from src/api (role field checked against UserRole.ADMIN). -/
inductive UserRole
  | admin
  | user
deriving Repr, DecidableEq

/-- Conversation participant role: full or readonly (spec section 6). -/
inductive Role
  | full
  | readonly
deriving Repr, DecidableEq

/-- One constructor per throw site of the source; the constructor models the
Error message string thrown there. -/
inductive Err
  | splitNotFound
  | splitAlreadyTerminal
  | onlySplitOwnerCanCancel
  | forbiddenUpdate
  | numSeatsBiggerThanNumPlaces
  | chargesNotEnabled
  | conversationNotFound
  | alreadyConversationMember
  | notConversationMember
  | splitHasNoSeatsTaken
  | duplicateReservation
  | paymentIntentNotFound
  | capacityExceeded
  | clientNotFound
  | ownerNotFound
  | sessionRequired
  | refundFailed (paymentIntent : String)
  | typeErrorPaymentIntentUndefined
deriving Repr, DecidableEq

deriving instance DecidableEq for Except

/-- A Split document, the fields of SplitSchema the lifecycle engine touches. -/
structure Split where
  id : Nat
  user : Nat
  type : SplitType
  numPlaces : Int
  numSeats : Int
  ownerSeats : Int
  placesLeft : Int
  price : ℚ
  status : SplitStatus
  cancelReason : Option String
  conversation : Nat
  expirationDate : Int
deriving Repr, DecidableEq

/-- OrderMetadataSchema: the denormalized snapshot on an Order.  Only the
amount fields are modelled; the name and title snapshots feed message text
only, which is modelled by message type. -/
structure OrderMetaData where
  amount : Int
  feeAmount : Int
deriving Repr, DecidableEq

/-- An Order document (OrderSchema fields the lifecycle engine touches). -/
structure Order where
  id : Nat
  client : Nat
  owner : Nat
  split : Nat
  numSeats : Int
  paymentIntent : String
  status : OrderStatusType
  metadata : OrderMetaData
deriving Repr, DecidableEq

/-- A conversation participant with a role. -/
structure Member where
  user : Nat
  role : Role
deriving Repr, DecidableEq

/-- Modelled from the spec: the Conversation Service keeps a per-Split
thread with a participant list (the conversation data source is not under
src/; only its call sites are). -/
structure Conversation where
  id : Nat
  split : Nat
  members : List Member
deriving Repr, DecidableEq

/-- The persisted store: Splits, Orders, Conversations, known user ids. -/
structure DB where
  splits : List Split
  orders : List Order
  conversations : List Conversation
  users : List Nat
deriving Repr, DecidableEq

/-- A Stripe payment intent as read back by getPaymentIntent. -/
structure PaymentIntent where
  id : String
  status : StripePaymentStatusType
  clientSecretTag : Nat
deriving Repr, DecidableEq

/-- Outcome of a stripe refund attempt: the refund promise either resolves
(none) or rejects with an error; bulkCancel swallows exactly the error whose
message includes the already-fully-reversed marker. -/
inductive RefundErr
  | alreadyFullyReversed
  | other (code : Nat)
deriving Repr, DecidableEq

/-- External collaborator state: gateway reads, refund outcomes, and the
SYSTEM_FEE configuration value (the config module is not under src/; the
spec calls it the configured fee percentage). -/
structure Env where
  getPaymentIntent : String → Option PaymentIntent
  refundResult : String → Option RefundErr
  systemFee : ℚ
deriving Inhabited

/-- The acting user resolved by the auth middleware. -/
structure UserCtx where
  id : Nat
  role : UserRole
deriving Repr, DecidableEq

/-- A refund call issued to the gateway, with the reverse-fee flag. -/
structure RefundCall where
  paymentIntent : String
  reverseFee : Bool
deriving Repr, DecidableEq

/-- A system message posted to a conversation, keyed by its messageType. -/
structure SystemMessage where
  conversation : Nat
  messageType : SplitRoomMessageTypes
deriving Repr, DecidableEq

/-- Log of externally visible side effects (gateway and conversation
service calls). -/
structure Effects where
  messages : List SystemMessage
  refunds : List RefundCall
  cancelledIntents : List String
  removedParticipants : List (Nat × Nat)
  readonlyFrozen : List Nat
  roleChanges : List (Nat × Nat × Role)
deriving Repr, DecidableEq

def Effects.empty : Effects := ⟨[], [], [], [], [], []⟩

def Effects.append (a b : Effects) : Effects :=
  ⟨a.messages ++ b.messages, a.refunds ++ b.refunds,
   a.cancelledIntents ++ b.cancelledIntents,
   a.removedParticipants ++ b.removedParticipants,
   a.readonlyFrozen ++ b.readonlyFrozen,
   a.roleChanges ++ b.roleChanges⟩

/-- findOne by _id on the Split collection. -/
def DB.findSplit (db : DB) (id : Nat) : Option Split :=
  db.splits.find? (fun s => s.id == id)

/-- findOneAndUpdate by _id: replace the Split with the matching id. -/
def DB.setSplit (db : DB) (s : Split) : DB :=
  { db with splits := db.splits.map (fun t => if t.id == s.id then s else t) }

/-- conversations.model.findOne by split reference. -/
def DB.findConversationBySplit (db : DB) (split : Nat) : Option Conversation :=
  db.conversations.find? (fun c => c.split == split)

def DB.setConversation (db : DB) (c : Conversation) : DB :=
  { db with conversations := db.conversations.map (fun d => if d.id == c.id then c else d) }

/-- order.save: replace the Order with the matching id. -/
def DB.saveOrder (db : DB) (o : Order) : DB :=
  { db with orders := db.orders.map (fun p => if p.id == o.id then o else p) }

/-- eventStatusMap from src/api/index.js lines 1578-1582: the fixed mapping
from gateway payment-intent states to Order statuses. -/
def eventStatusMap : StripePaymentStatusType → Option OrderStatusType
  | StripePaymentStatusType.canceled => some OrderStatusType.system_canceled
  | StripePaymentStatusType.payment_failed => some OrderStatusType.payment_failed
  | StripePaymentStatusType.succeeded => some OrderStatusType.paid
  | _ => none

/-- exitableStatuses = [CANCELED]. -/
def exitableStatuses : List StripePaymentStatusType := [StripePaymentStatusType.canceled]

/-- promotableStatuses = [SUCCESS]. -/
def promotableStatuses : List StripePaymentStatusType := [StripePaymentStatusType.succeeded]

/-- demotableStatuses = [PAYMENT_FAILED]. -/
def demotableStatuses : List StripePaymentStatusType := [StripePaymentStatusType.payment_failed]

/-- The $nin status list used for the duplicate-reservation check and the
individual cancel lookups: the three cancelled statuses. -/
def cancelledOrderStatuses : List OrderStatusType :=
  [OrderStatusType.system_canceled, OrderStatusType.owner_canceled,
   OrderStatusType.client_canceled]

/-- The terminal statuses checked by cancelAction. -/
def terminalSplitStatuses : List SplitStatus :=
  [SplitStatus.COMPLETE, SplitStatus.EXPIRED, SplitStatus.CANCELLED]

/-- JavaScript truthiness of an optional number: undefined and 0 are falsy. -/
def jsTruthyInt : Option Int → Bool
  | none => false
  | some n => n != 0

/-- JavaScript `x || 0` on an optional number. -/
def jsOr0 : Option Int → Int
  | none => 0
  | some n => n

/-- SplitDataSource.incrementNumSeats (src/api/index.js lines 710-755): apply
the $inc of numSeats and -numSeats to placesLeft, then derive the status from
the resulting placesLeft, posting the matching system message. -/
def SplitDataSource.incrementNumSeats (s : Split) (numSeats : Int) :
    Split × List SystemMessage :=
  let split : Split :=
    { s with numSeats := s.numSeats + numSeats, placesLeft := s.placesLeft - numSeats }
  if split.status = SplitStatus.ACTIVE ∧ split.placesLeft ≤ 0 then
    ({ split with status := SplitStatus.COMPLETE },
     [⟨split.conversation, SplitRoomMessageTypes.SPLIT_COMPLETED⟩])
  else if split.status = SplitStatus.COMPLETE ∧ split.placesLeft > 0 then
    ({ split with status := SplitStatus.ACTIVE },
     [⟨split.conversation, SplitRoomMessageTypes.SPLIT_RESET⟩])
  else
    (split, [])

/-- CreateSplitInput fields the seat engine reads. -/
structure CreateSplitInput where
  type : SplitType
  numPlaces : Int
  numSeats : Int
  price : ℚ
  expirationDate : Int
deriving Repr, DecidableEq

/-- SplitDataSource.create (src/api/index.js lines 1110-1196), the validation
and field derivation part: reject numPlaces <= numSeats, derive placesLeft,
ownerSeats and the ACTIVE status.  The envelope wrapper (code 200/501), the
conversation creation and the first message are elided; chargesEnabled is an
environment flag. -/
def SplitDataSource.create (ctxUser : Nat) (chargesEnabled : Bool)
    (newId newConversation : Nat) (split : CreateSplitInput) : Except Err Split :=
  if split.numPlaces ≤ split.numSeats then
    Except.error Err.numSeatsBiggerThanNumPlaces
  else if ¬chargesEnabled then
    Except.error Err.chargesNotEnabled
  else
    Except.ok
      { id := newId
        user := ctxUser
        type := split.type
        numPlaces := split.numPlaces
        numSeats := split.numSeats
        ownerSeats := split.numSeats
        placesLeft := split.numPlaces - split.numSeats
        price := split.price
        status := SplitStatus.ACTIVE
        cancelReason := none
        conversation := newConversation
        expirationDate := split.expirationDate }

/-- The update document of updateSplit: fields absent from the GraphQL input
are undefined and are not written by findOneAndUpdate. -/
structure UpdateSplitInput where
  numPlaces : Option Int
  numSeats : Option Int
  expirationDate : Option Int
deriving Repr, DecidableEq

/-- The mutation core of SplitDataSource.update (src/api/index.js lines
1327-1333): when numPlaces or numSeats is truthy, placesLeft is recomputed
as (numPlaces || 0) - (numSeats || 0) and added to the update document; then
findOneAndUpdate writes exactly the fields present in the document. -/
def SplitDataSource.applyUpdateDoc (s : Split) (u : UpdateSplitInput) : Split :=
  let placesLeftDoc : Option Int :=
    if jsTruthyInt u.numPlaces || jsTruthyInt u.numSeats then
      some (jsOr0 u.numPlaces - jsOr0 u.numSeats)
    else
      none
  { s with
    numPlaces := u.numPlaces.getD s.numPlaces
    numSeats := u.numSeats.getD s.numSeats
    placesLeft := placesLeftDoc.getD s.placesLeft
    expirationDate := u.expirationDate.getD s.expirationDate }

/-- SplitDataSource.update (src/api/index.js lines 1307-1363): find the
Split, authorize owner or admin, apply the update document, and post the
expiration-extended message when an expirationDate was supplied. -/
def SplitDataSource.update (ctx : UserCtx) (db : DB) (id : Nat)
    (split : UpdateSplitInput) : Except Err Split × DB × Effects :=
  match db.findSplit id with
  | none => (Except.error Err.splitNotFound, db, Effects.empty)
  | some splitData =>
    if ctx.id ≠ splitData.user ∧ ctx.role ≠ UserRole.admin then
      (Except.error Err.forbiddenUpdate, db, Effects.empty)
    else
      let updatedSplit := SplitDataSource.applyUpdateDoc splitData split
      let fx : Effects :=
        if split.expirationDate.isSome then
          { Effects.empty with
            messages := [⟨splitData.conversation, SplitRoomMessageTypes.SPLIT_EXTENDED⟩] }
        else
          Effects.empty
      (Except.ok updatedSplit, db.setSplit updatedSplit, fx)

/-- SplitDataSource.join (src/api/index.js lines 779-828): look up the
conversation for the Split, reject when it is missing or the client is
already a member, reserve the seats via incrementNumSeats, post the
client-joined message and add the client to the conversation. -/
def SplitDataSource.join (db : DB) (split : Nat) (order : Order)
    (clientId : Nat) (role : Role) : Except Err (DB × Effects) :=
  match db.findConversationBySplit split with
  | none => Except.error Err.conversationNotFound
  | some conversation =>
    if conversation.members.any (fun m => m.user == clientId) then
      Except.error Err.alreadyConversationMember
    else
      match db.findSplit split with
      | none => Except.error Err.splitNotFound
      | some s =>
        let (s2, msgs) := SplitDataSource.incrementNumSeats s order.numSeats
        let db1 := (db.setSplit s2).setConversation
          { conversation with members := conversation.members ++ [⟨clientId, role⟩] }
        Except.ok (db1,
          { Effects.empty with
            messages := msgs ++ [⟨conversation.id, SplitRoomMessageTypes.CLIENT_JOINED⟩] })

/-- SplitDataSource.exit (src/api/index.js lines 839-891): reject when the
Split has no seats taken, the conversation is missing or the client is not a
member; release the seats via incrementNumSeats with the negated count,
remove the participant and post the client-exited message. -/
def SplitDataSource.exit (db : DB) (split : Nat) (order : Order)
    (clientId : Nat) : Except Err (DB × Effects) :=
  match db.findSplit split with
  | none => Except.error Err.splitNotFound
  | some splitData =>
    if splitData.numSeats == 0 then
      Except.error Err.splitHasNoSeatsTaken
    else
      match db.findConversationBySplit split with
      | none => Except.error Err.conversationNotFound
      | some conversation =>
        if ¬conversation.members.any (fun m => m.user == clientId) then
          Except.error Err.notConversationMember
        else
          let (s2, msgs) := SplitDataSource.incrementNumSeats splitData (-order.numSeats)
          let db1 := (db.setSplit s2).setConversation
            { conversation with
              members := conversation.members.filter (fun m => ¬(m.user == clientId)) }
          Except.ok (db1,
            { Effects.empty with
              messages := msgs ++ [⟨splitData.conversation, SplitRoomMessageTypes.CLIENT_EXITED⟩]
              removedParticipants := [(conversation.id, clientId)] })

/-- OrderDataSource.bulkCancel (src/api/index.js lines 2178-2203): require a
session, load every Order of the Split, start a refund with the fee reversed
for each (Promise.all starts them all), swallow only the already-fully-
reversed provider error and fail the batch on any other refund error, then
apply one batched updateMany setting the status on every Order of the
Split.  Returns the refund calls issued alongside the outcome. -/
def OrderDataSource.bulkCancel (env : Env) (db : DB) (split : Nat)
    (status : OrderStatusType) (hasSession : Bool) :
    Except Err DB × List RefundCall :=
  if ¬hasSession then
    (Except.error Err.sessionRequired, [])
  else
    let ordersData := db.orders.filter (fun o => o.split == split)
    let attempts := ordersData.map (fun o => (⟨o.paymentIntent, true⟩ : RefundCall))
    match ordersData.find? (fun o =>
        match env.refundResult o.paymentIntent with
        | some (RefundErr.other _) => true
        | _ => false) with
    | some o => (Except.error (Err.refundFailed o.paymentIntent), attempts)
    | none =>
      (Except.ok
        { db with
          orders := db.orders.map (fun o =>
            if o.split == split then { o with status := status } else o) },
       attempts)

/-- splitCancelMessage keyed by messageType: every branch posts one
SPLIT_CANCELLED message (the text differs by status and reason only). -/
def splitCancelMessageTag : SystemMessage → SystemMessage := id

/-- SplitDataSource.cancel (src/api/index.js lines 1054-1108): load the
Split, bulkCancel all its Orders with OWNER_CANCELED inside the transaction
(a bulkCancel failure aborts the transaction: the store rolls back, but the
refund calls already issued to the gateway are not undone), set the terminal
status and cancelReason, freeze the conversation to readonly, and post one
split-cancelled system message. -/
def SplitDataSource.cancel (env : Env) (db : DB) (id : Nat)
    (reason : Option String) (status : SplitStatus) :
    Except Err Split × DB × Effects :=
  match db.findSplit id with
  | none => (Except.error Err.splitNotFound, db, Effects.empty)
  | some split =>
    match OrderDataSource.bulkCancel env db id OrderStatusType.owner_canceled true with
    | (Except.error e, attempts) =>
      (Except.error e, db, { Effects.empty with refunds := attempts })
    | (Except.ok db1, attempts) =>
      let split2 := { split with status := status, cancelReason := reason }
      let db2 := db1.setSplit split2
      (Except.ok split2, db2,
       { Effects.empty with
         refunds := attempts
         readonlyFrozen := [id]
         messages := [⟨split.conversation, SplitRoomMessageTypes.SPLIT_CANCELLED⟩] })

/-- The uniform mutation result envelope for Split mutations: success carries
code 200 and the Split, failure carries code 501 and the error message. -/
inductive SplitMutationResponse
  | success (split : Split)
  | failure (message : Err)
deriving Repr, DecidableEq

/-- SplitDataSource.cancelAction (src/api/index.js lines 893-929): reject
when the Split is already COMPLETE, EXPIRED or CANCELLED, then when the
caller is neither the owner nor an admin; otherwise run cancel with status
CANCELLED, converting a thrown error into the failure envelope. -/
def SplitDataSource.cancelAction (env : Env) (ctx : UserCtx) (db : DB)
    (id : Nat) (reason : Option String) : SplitMutationResponse × DB × Effects :=
  match db.findSplit id with
  | none => (SplitMutationResponse.failure Err.splitNotFound, db, Effects.empty)
  | some splitData =>
    if splitData.status ∈ terminalSplitStatuses then
      (SplitMutationResponse.failure Err.splitAlreadyTerminal, db, Effects.empty)
    else if splitData.user ≠ ctx.id ∧ ctx.role ≠ UserRole.admin then
      (SplitMutationResponse.failure Err.onlySplitOwnerCanCancel, db, Effects.empty)
    else
      match SplitDataSource.cancel env db id reason SplitStatus.CANCELLED with
      | (Except.ok s, db1, fx) => (SplitMutationResponse.success s, db1, fx)
      | (Except.error e, db1, fx) => (SplitMutationResponse.failure e, db1, fx)

/-- The expiry pass selection (src/api/index.js lines 1024-1027): every Split
whose expirationDate is not after now; there is no status filter on this
query. -/
def SplitDataSource.expireSelect (db : DB) (now : Int) : List Split :=
  db.splits.filter (fun s => decide (s.expirationDate ≤ now))

/-- The fan-out of the expiry pass: run cancel with status EXPIRED on each
selected Split, collecting every settled outcome (Promise.allSettled: a
rejection is recorded and does not stop the other cancellations). -/
def SplitDataSource.expireRun (env : Env) :
    List Split → DB → List (Except Err Split) × DB × Effects
  | [], db => ([], db, Effects.empty)
  | s :: rest, db =>
    let (r, db1, fx1) := SplitDataSource.cancel env db s.id none SplitStatus.EXPIRED
    let (rs, db2, fx2) := SplitDataSource.expireRun env rest db1
    (r :: rs, db2, Effects.append fx1 fx2)

/-- SplitDataSource.expire (src/api/index.js lines 1022-1052): select the
Splits past their expirationDate and cancel each with status EXPIRED. -/
def SplitDataSource.expire (env : Env) (db : DB) (now : Int) :
    List (Except Err Split) × DB × Effects :=
  SplitDataSource.expireRun env (SplitDataSource.expireSelect db now) db

/-- parseFloat(q.toFixed(2)): round to two decimals.  JavaScript toFixed
rounds to the nearest hundredth (ties away from zero on the nonnegative
amounts handled here, matching round). -/
def round2 (q : ℚ) : ℚ := ((round (q * 100) : ℤ) : ℚ) / 100

/-- OrderDataSource.calcAmount (src/api/index.js lines 2037-2046): amount is
the Split price over numPlaces times numSeats rounded to cents, feeAmount is
SYSTEM_FEE of that rounded to cents, and the returned pair is
parseInt((amount + feeAmount) * 100) and parseInt(feeAmount * 100): the
charged amount in cents includes the fee.  SYSTEM_FEE is the fee parameter
(its config module is not under src/). -/
def OrderDataSource.calcAmount (fee : ℚ) (split : Split) (numSeats : Int) :
    Int × Int :=
  let perSplitPrice := split.price / (split.numPlaces : ℚ)
  let amount := round2 (perSplitPrice * (numSeats : ℚ))
  let feeAmount := round2 (amount * fee)
  (⌊(amount + feeAmount) * 100⌋, ⌊feeAmount * 100⌋)

/-- CreateOrderInput fields the engine reads (shippingAddress is persisted
verbatim and elided). -/
structure CreateOrderInput where
  split : Nat
  numSeats : Int
  paymentIntent : String
deriving Repr, DecidableEq

/-- The createOrder result envelope: success carries code 200 and the Order,
failure carries code 501, the message and the paymentIntent client secret. -/
inductive OrderMutationResponse
  | success (order : Order)
  | failure (message : Err) (clientSecretTag : Nat)
deriving Repr, DecidableEq

/-- What a createOrder call does at the API boundary: return the envelope,
or let an exception escape. -/
inductive CreateOrderOutcome
  | envelope (r : OrderMutationResponse)
  | thrown (e : Err)
deriving Repr, DecidableEq

def CreateOrderOutcome.isSuccess : CreateOrderOutcome → Bool
  | CreateOrderOutcome.envelope (OrderMutationResponse.success _) => true
  | _ => false

/-- The catch block of OrderDataSource.create (src/api/index.js lines
1954-1971): it reads paymentIntent.status unconditionally, so when the local
paymentIntent variable was never assigned a non-null value (the try threw
before or at the gateway read) the catch itself throws a TypeError that
escapes create; otherwise it compensates by refunding (succeeded) or
cancelling (any other state) the authorization and returns the failure
envelope carrying the client secret. -/
def OrderDataSource.createCatch (paymentIntent : Option PaymentIntent)
    (e : Err) (db : DB) (fx : Effects) : CreateOrderOutcome × DB × Effects :=
  match paymentIntent with
  | none => (CreateOrderOutcome.thrown Err.typeErrorPaymentIntentUndefined, db, fx)
  | some pi =>
    if pi.status = StripePaymentStatusType.succeeded then
      (CreateOrderOutcome.envelope (OrderMutationResponse.failure e pi.clientSecretTag),
       db, { fx with refunds := fx.refunds ++ [⟨pi.id, true⟩] })
    else
      (CreateOrderOutcome.envelope (OrderMutationResponse.failure e pi.clientSecretTag),
       db, { fx with cancelledIntents := fx.cancelledIntents ++ [pi.id] })

/-- OrderDataSource.create (src/api/index.js lines 1834-1972): reject a
paymentIntent already bound to any Order or a client already holding a
non-cancelled Order on the Split; re-read the authorization from the
gateway; re-validate the Split and its capacity; look up client and owner;
compute the amounts; derive the initial status from eventStatusMap with
default PAYMENT_PENDING; then inside one transaction persist the Order and
join the Split (seat reservation plus conversation membership, role full
when the authorization already succeeded).  Every throw lands in the catch
block modelled by createCatch. -/
def OrderDataSource.create (env : Env) (ctx : UserCtx) (db : DB)
    (newOrderId : Nat) (order : CreateOrderInput) :
    CreateOrderOutcome × DB × Effects :=
  let existingOrder := db.orders.find? (fun o =>
    o.paymentIntent == order.paymentIntent ||
    (o.split == order.split && o.client == ctx.id &&
     ¬(o.status ∈ cancelledOrderStatuses)))
  if existingOrder.isSome then
    OrderDataSource.createCatch none Err.duplicateReservation db Effects.empty
  else
    match env.getPaymentIntent order.paymentIntent with
    | none => OrderDataSource.createCatch none Err.paymentIntentNotFound db Effects.empty
    | some paymentIntent =>
      match db.findSplit order.split with
      | none =>
        OrderDataSource.createCatch (some paymentIntent) Err.splitNotFound db Effects.empty
      | some split =>
        if split.placesLeft < order.numSeats then
          OrderDataSource.createCatch (some paymentIntent) Err.capacityExceeded db Effects.empty
        else if ¬(ctx.id ∈ db.users) then
          OrderDataSource.createCatch (some paymentIntent) Err.clientNotFound db Effects.empty
        else if ¬(split.user ∈ db.users) then
          OrderDataSource.createCatch (some paymentIntent) Err.ownerNotFound db Effects.empty
        else
          let amounts := OrderDataSource.calcAmount env.systemFee split order.numSeats
          let status :=
            (eventStatusMap paymentIntent.status).getD OrderStatusType.payment_pending
          let newOrder : Order :=
            { id := newOrderId
              client := ctx.id
              owner := split.user
              split := order.split
              numSeats := order.numSeats
              paymentIntent := order.paymentIntent
              status := status
              metadata := ⟨amounts.1, amounts.2⟩ }
          let db1 := { db with orders := db.orders ++ [newOrder] }
          let role :=
            if paymentIntent.status ∈ promotableStatuses then Role.full else Role.readonly
          match SplitDataSource.join db1 order.split newOrder ctx.id role with
          | Except.error e =>
            OrderDataSource.createCatch (some paymentIntent) e db Effects.empty
          | Except.ok (db2, fx) =>
            (CreateOrderOutcome.envelope (OrderMutationResponse.success newOrder), db2, fx)

/-- Modelled from the spec: SplitDataSource.updateParticipantRole is called
by updateOrderStatus but not defined under src/; the spec contract is
setRole(conversationId, userId, role), a membership role change with no
seat change. -/
def SplitDataSource.updateParticipantRole (db : DB) (split : Nat)
    (user : Nat) (role : Role) : Except Err (DB × Effects) :=
  match db.findConversationBySplit split with
  | none => Except.error Err.conversationNotFound
  | some conversation =>
    let db1 := db.setConversation
      { conversation with
        members := conversation.members.map (fun m =>
          if m.user == user then { m with role := role } else m) }
    Except.ok (db1, { Effects.empty with roleChanges := [(conversation.id, user, role)] })

/-- OrderDataSource.updateOrderStatus (src/api/index.js lines 2069-2122),
driven by the gateway webhook: map the event status through eventStatusMap
onto the Order (statuses outside the map leave it unchanged); on an exitable
state eject the client from the Split (seat release and participant
removal); on a promotable or demotable state change the membership role
only; finally save the Order.  A failure aborts the transaction. -/
def OrderDataSource.updateOrderStatus (db : DB)
    (eventStatus : StripePaymentStatusType) (order : Order) :
    Except Err Order × DB × Effects :=
  let order1 :=
    match eventStatusMap eventStatus with
    | some st => { order with status := st }
    | none => order
  let step1 : Except Err (DB × Effects) :=
    if eventStatus ∈ exitableStatuses then
      SplitDataSource.exit db order1.split order1 order1.client
    else
      Except.ok (db, Effects.empty)
  match step1 with
  | Except.error e => (Except.error e, db, Effects.empty)
  | Except.ok (db1, fx1) =>
    let step2 : Except Err (DB × Effects) :=
      if eventStatus ∈ promotableStatuses then
        SplitDataSource.updateParticipantRole db1 order1.split order1.client Role.full
      else
        Except.ok (db1, Effects.empty)
    match step2 with
    | Except.error e => (Except.error e, db, Effects.empty)
    | Except.ok (db2, fx2) =>
      let step3 : Except Err (DB × Effects) :=
        if eventStatus ∈ demotableStatuses then
          SplitDataSource.updateParticipantRole db2 order1.split order1.client Role.readonly
        else
          Except.ok (db2, Effects.empty)
      match step3 with
      | Except.error e => (Except.error e, db, Effects.empty)
      | Except.ok (db3, fx3) =>
        (Except.ok order1, db3.saveOrder order1,
         Effects.append fx1 (Effects.append fx2 fx3))

/-- The seat-accounting invariant of spec section 8: numSeats plus placesLeft
equals numPlaces. -/
def Split.seatInvariant (s : Split) : Prop :=
  s.numSeats + s.placesLeft = s.numPlaces

instance (s : Split) : Decidable s.seatInvariant := by
  unfold Split.seatInvariant; infer_instance

/-- Definition following the claim text of C9 (not the source): the amount in
cents is (price / numPlaces) x numSeats rounded to the smallest currency
unit. -/
def claimedAmountCents (split : Split) (numSeats : Int) : Int :=
  round (split.price / (split.numPlaces : ℚ) * (numSeats : ℚ) * 100)

/-- Definition following the claim text of C9 (not the source): the fee in
cents is the configured percentage of the rounded amount, rounded to the
smallest currency unit. -/
def claimedFeeCents (fee : ℚ) (split : Split) (numSeats : Int) : Int :=
  round (round2 (split.price / (split.numPlaces : ℚ) * (numSeats : ℚ)) * fee * 100)
/-- Replacing one list entry, keyed by id, with a replacement that still
satisfies the search predicate: a later find? with that predicate returns the
replacement. -/
theorem find?_map_replace {α : Type} (p : α → Bool) (idf : α → Nat)
    (l : List α) (a b : α) (hf : l.find? p = some a) (hid : idf b = idf a)
    (hpb : p b = true) :
    (l.map (fun x => if idf x == idf b then b else x)).find? p = some b := by
  induction l with
  | nil => simp at hf
  | cons t rest ih =>
    simp only [List.map_cons]
    by_cases htb : idf t = idf b
    · rw [if_pos (by simpa using htb)]
      exact List.find?_cons_of_pos _ hpb
    · rw [if_neg (by simpa using htb)]
      by_cases hpt : p t = true
      · rw [List.find?_cons_of_pos _ hpt] at hf
        injection hf with hf
        exact absurd (hf ▸ hid) fun h => htb h.symm
      · rw [List.find?_cons_of_neg _ (by simpa using hpt)] at hf
        rw [List.find?_cons_of_neg _ (by simpa using hpt)]
        exact ih hf

/-- Writing back a Split under the id of one previously found: a later lookup
of that id sees the replacement. -/
theorem DB.findSplit_setSplit (db : DB) (i : Nat) (s s2 : Split)
    (hf : db.findSplit i = some s) (hid : s2.id = s.id) :
    (db.setSplit s2).findSplit i = some s2 := by
  unfold DB.findSplit at hf ⊢
  unfold DB.setSplit
  refine find?_map_replace _ Split.id db.splits s s2 hf hid ?_
  have hsi := List.find?_some hf
  simp only at hsi
  simpa [hid] using hsi

/-- Writing back a Conversation under the id of one previously found by
split: a later lookup by the same split sees the replacement. -/
theorem DB.findConversationBySplit_setConversation (db : DB) (sp : Nat)
    (c c2 : Conversation) (hf : db.findConversationBySplit sp = some c)
    (hid : c2.id = c.id) (hsp : c2.split = c.split) :
    (db.setConversation c2).findConversationBySplit sp = some c2 := by
  unfold DB.findConversationBySplit at hf ⊢
  unfold DB.setConversation
  refine find?_map_replace _ Conversation.id db.conversations c c2 hf hid ?_
  have hcs := List.find?_some hf
  simp only at hcs
  simpa [hsp] using hcs

theorem c2helper_placesLeft (s : Split) (d : Int) :
    (SplitDataSource.incrementNumSeats s d).1.placesLeft = s.placesLeft - d := by
  unfold SplitDataSource.incrementNumSeats
  dsimp only
  split_ifs <;> rfl

/-- C2: through incrementNumSeats, if the resulting placesLeft is at most 0
and the prior status was ACTIVE, the status becomes COMPLETE and a split-
completed system message is posted; if the resulting placesLeft is positive
and the prior status was COMPLETE, the status reverts to ACTIVE and a
split-reset message is posted; in every other case the status is unchanged
and no message is posted. -/
theorem c2_increment_status_transitions (s : Split) (d : Int) :
    (s.status = SplitStatus.ACTIVE → s.placesLeft - d ≤ 0 →
        (SplitDataSource.incrementNumSeats s d).1.status = SplitStatus.COMPLETE ∧
        (SplitDataSource.incrementNumSeats s d).2 =
          [⟨s.conversation, SplitRoomMessageTypes.SPLIT_COMPLETED⟩]) ∧
    (s.status = SplitStatus.COMPLETE → 0 < s.placesLeft - d →
        (SplitDataSource.incrementNumSeats s d).1.status = SplitStatus.ACTIVE ∧
        (SplitDataSource.incrementNumSeats s d).2 =
          [⟨s.conversation, SplitRoomMessageTypes.SPLIT_RESET⟩]) ∧
    (¬(s.status = SplitStatus.ACTIVE ∧ s.placesLeft - d ≤ 0) →
     ¬(s.status = SplitStatus.COMPLETE ∧ 0 < s.placesLeft - d) →
        (SplitDataSource.incrementNumSeats s d).1.status = s.status ∧
        (SplitDataSource.incrementNumSeats s d).2 = []) := by
  unfold SplitDataSource.incrementNumSeats
  dsimp only
  refine ⟨?_, ?_, ?_⟩
  · intro ha hp
    rw [if_pos ⟨ha, hp⟩]
    exact ⟨rfl, rfl⟩
  · intro hc hp
    rw [if_neg (by simp [hc]), if_pos ⟨hc, hp⟩]
    exact ⟨rfl, rfl⟩
  · intro h1 h2
    rw [if_neg h1, if_neg h2]
    exact ⟨rfl, rfl⟩

/-- Witness Split for C2: ACTIVE with one place left. -/
def c2Split : Split :=
  { id := 1, user := 10, type := SplitType.APP, numPlaces := 4, numSeats := 3,
    ownerSeats := 1, placesLeft := 1, price := 100, status := SplitStatus.ACTIVE,
    cancelReason := none, conversation := 7, expirationDate := 100 }

theorem c2_increment_status_transitions_witness :
    (SplitDataSource.incrementNumSeats c2Split 1).1.status = SplitStatus.COMPLETE ∧
    (SplitDataSource.incrementNumSeats c2Split 1).2 =
      [⟨7, SplitRoomMessageTypes.SPLIT_COMPLETED⟩] :=
  (c2_increment_status_transitions c2Split 1).1 (by decide) (by decide)

/-- An invariant-satisfying APP Split used for the C1 analysis. -/
def c1Split : Split :=
  { id := 1, user := 10, type := SplitType.APP, numPlaces := 5, numSeats := 2,
    ownerSeats := 0, placesLeft := 3, price := 100, status := SplitStatus.ACTIVE,
    cancelReason := none, conversation := 7, expirationDate := 100 }

def c1Db : DB := { splits := [c1Split], orders := [], conversations := [], users := [10] }

/-- An update supplying only numPlaces, as the data source accepts. -/
def c1BadUpdate : UpdateSplitInput :=
  { numPlaces := some 6, numSeats := none, expirationDate := none }

/-- The Split state c1BadUpdate produces: numSeats is kept, placesLeft is
recomputed as 6 - 0. -/
def c1BadUpdated : Split :=
  { c1Split with numPlaces := 6, placesLeft := 6 }

/-- C1 counterexample: updateSplit does not preserve the seat equation.  On
an APP Split with numPlaces 5, numSeats 2, placesLeft 3 (equation holds), an
update supplying only numPlaces := 6 recomputes placesLeft as
(6 || 0) - (undefined || 0) = 6 while numSeats stays 2, leaving
2 + 6 = 8 different from numPlaces 6. -/
theorem c1_seat_equation_counterexample :
    c1Split.seatInvariant ∧ c1Split.type = SplitType.APP ∧
    (SplitDataSource.update ⟨10, UserRole.user⟩ c1Db 1 c1BadUpdate).1 =
      Except.ok c1BadUpdated ∧
    ¬c1BadUpdated.seatInvariant := by decide

/-- C1 (amended): the seat equation numSeats + placesLeft = numPlaces is
established by Split creation and preserved by every incrementNumSeats; an
updateSplit guarantees it only when the update document supplies both
numPlaces and numSeats with at least one of them nonzero (it then recomputes
placesLeft = numPlaces - numSeats); an update supplying only one of the two
counters can violate the equation. -/
theorem c1_seat_equation :
    (∀ ctxUser chargesEnabled newId newConversation input s,
        SplitDataSource.create ctxUser chargesEnabled newId newConversation input =
          Except.ok s →
        s.seatInvariant) ∧
    (∀ (s : Split) (d : Int), s.seatInvariant →
        (SplitDataSource.incrementNumSeats s d).1.seatInvariant) ∧
    (∀ ctx db id u s' db' fx,
        SplitDataSource.update ctx db id u = (Except.ok s', db', fx) →
        ∀ p q, u.numPlaces = some p → u.numSeats = some q → ¬(p = 0 ∧ q = 0) →
        s'.seatInvariant) := by
  refine ⟨?_, ?_, ?_⟩
  · intro ctxUser chargesEnabled newId newConversation input s h
    unfold SplitDataSource.create at h
    split at h
    · exact absurd h (by simp)
    · split at h
      · exact absurd h (by simp)
      · injection h with h
        subst h
        show input.numSeats + (input.numPlaces - input.numSeats) = input.numPlaces
        omega
  · intro s d h
    unfold SplitDataSource.incrementNumSeats
    dsimp only
    unfold Split.seatInvariant at h ⊢
    split_ifs <;> dsimp only <;> omega
  · intro ctx db id u s' db' fx h p q hp hq hpq
    unfold SplitDataSource.update at h
    rcases hfind : db.findSplit id with _ | splitData
    · rw [hfind] at h
      simp at h
    · rw [hfind] at h
      dsimp only at h
      split at h
      · simp at h
      · have h1 := congrArg Prod.fst h
        simp only at h1
        have hs' : SplitDataSource.applyUpdateDoc splitData u = s' := by
          simpa using h1
        subst hs'
        have hcond : (jsTruthyInt (some p) || jsTruthyInt (some q)) = true := by
          unfold jsTruthyInt
          rcases Decidable.em (p = 0) with h0 | h0
          · have hq0 : ¬q = 0 := fun hh => hpq ⟨h0, hh⟩
            simp [hq0]
          · simp [h0]
        unfold SplitDataSource.applyUpdateDoc Split.seatInvariant
        simp only [hp, hq, hcond, eq_self_iff_true, if_true, Option.getD_some, jsOr0]
        omega

/-- An update supplying both counters, used to witness the amended C1. -/
def c1GoodUpdate : UpdateSplitInput :=
  { numPlaces := some 6, numSeats := some 1, expirationDate := none }

def c1GoodUpdated : Split :=
  { c1Split with numPlaces := 6, numSeats := 1, placesLeft := 5 }

def c1Input : CreateSplitInput :=
  { type := SplitType.APP, numPlaces := 4, numSeats := 1, price := 100,
    expirationDate := 50 }

def c1Created : Split :=
  { id := 2, user := 10, type := SplitType.APP, numPlaces := 4, numSeats := 1,
    ownerSeats := 1, placesLeft := 3, price := 100, status := SplitStatus.ACTIVE,
    cancelReason := none, conversation := 8, expirationDate := 50 }

theorem c1_seat_equation_witness :
    c1Created.seatInvariant ∧
    (SplitDataSource.incrementNumSeats c1Split 1).1.seatInvariant ∧
    c1GoodUpdated.seatInvariant := by
  refine ⟨c1_seat_equation.1 10 true 2 8 c1Input c1Created (by decide),
          c1_seat_equation.2.1 c1Split 1 (by decide),
          c1_seat_equation.2.2 ⟨10, UserRole.user⟩ c1Db 1 c1GoodUpdate c1GoodUpdated
            (c1Db.setSplit c1GoodUpdated) Effects.empty (by decide) 6 1 (by decide)
            (by decide) (by decide)⟩

/-- A concrete external environment: gateway reads find nothing, refunds
resolve, the configured fee is 10 percent. -/
def env0 : Env :=
  { getPaymentIntent := fun _ => none, refundResult := fun _ => none, systemFee := 1/10 }

/-- C3: cancelSplit on a Split already in a terminal status fails with the
already-terminal error and performs no mutation (store unchanged, no
external calls); a caller who is neither the owner nor an admin never gets a
success and causes no mutation, and on a non-terminal Split that failure is
the owner-only error. -/
theorem c3_cancelAction_guards (env : Env) (ctx : UserCtx) (db : DB) (id : Nat)
    (reason : Option String) (splitData : Split)
    (hfind : db.findSplit id = some splitData) :
    (splitData.status ∈ terminalSplitStatuses →
        SplitDataSource.cancelAction env ctx db id reason =
          (SplitMutationResponse.failure Err.splitAlreadyTerminal, db, Effects.empty)) ∧
    (splitData.user ≠ ctx.id ∧ ctx.role ≠ UserRole.admin →
        (SplitDataSource.cancelAction env ctx db id reason).2.1 = db ∧
        (SplitDataSource.cancelAction env ctx db id reason).2.2 = Effects.empty ∧
        (∀ s, (SplitDataSource.cancelAction env ctx db id reason).1 ≠
          SplitMutationResponse.success s) ∧
        (splitData.status ∉ terminalSplitStatuses →
          (SplitDataSource.cancelAction env ctx db id reason).1 =
            SplitMutationResponse.failure Err.onlySplitOwnerCanCancel)) := by
  unfold SplitDataSource.cancelAction
  rw [hfind]
  dsimp only
  constructor
  · intro hterm
    rw [if_pos hterm]
  · intro hpriv
    by_cases hterm : splitData.status ∈ terminalSplitStatuses
    · rw [if_pos hterm]
      refine ⟨rfl, rfl, ?_, ?_⟩
      · intro s h
        exact SplitMutationResponse.noConfusion h
      · intro hnt
        exact absurd hterm hnt
    · rw [if_neg hterm, if_pos hpriv]
      refine ⟨rfl, rfl, ?_, ?_⟩
      · intro s h
        exact SplitMutationResponse.noConfusion h
      · intro _
        rfl

/-- A terminal Split owned by user 10. -/
def c3Split : Split :=
  { id := 3, user := 10, type := SplitType.APP, numPlaces := 4, numSeats := 4,
    ownerSeats := 0, placesLeft := 0, price := 100, status := SplitStatus.COMPLETE,
    cancelReason := none, conversation := 7, expirationDate := 100 }

def c3Db : DB := { splits := [c3Split], orders := [], conversations := [], users := [10] }

/-- An ACTIVE Split owned by user 10, cancelled by stranger 11. -/
def c3ActiveSplit : Split := { c3Split with id := 5, status := SplitStatus.ACTIVE }

def c3ActiveDb : DB :=
  { splits := [c3ActiveSplit], orders := [], conversations := [], users := [10] }

theorem c3_cancelAction_guards_witness :
    SplitDataSource.cancelAction env0 ⟨11, UserRole.user⟩ c3Db 3 none =
      (SplitMutationResponse.failure Err.splitAlreadyTerminal, c3Db, Effects.empty) ∧
    (SplitDataSource.cancelAction env0 ⟨11, UserRole.user⟩ c3ActiveDb 5 none).1 =
      SplitMutationResponse.failure Err.onlySplitOwnerCanCancel ∧
    (SplitDataSource.cancelAction env0 ⟨11, UserRole.user⟩ c3ActiveDb 5 none).2.1 =
      c3ActiveDb := by
  have h1 := c3_cancelAction_guards env0 ⟨11, UserRole.user⟩ c3Db 3 none c3Split (by decide)
  have h2 := c3_cancelAction_guards env0 ⟨11, UserRole.user⟩ c3ActiveDb 5 none c3ActiveSplit
    (by decide)
  have h2p := h2.2 (by decide)
  exact ⟨h1.1 (by decide), h2p.2.2.2 (by decide), h2p.1⟩

/-- Every expiry fan-out produces exactly one settled outcome per selected
Split: a failed cancellation is collected and does not stop the rest. -/
theorem expireRun_length (env : Env) (l : List Split) (db : DB) :
    (SplitDataSource.expireRun env l db).1.length = l.length := by
  induction l generalizing db with
  | nil => rfl
  | cons s rest ih =>
    unfold SplitDataSource.expireRun
    dsimp only
    rw [List.length_cons, ih]
    rfl

/-- C4 (amended): the expiry pass selects exactly the Splits whose
expirationDate is not after now, with no terminal-status filter, and invokes
the cancel path with status EXPIRED once per selected Split, every selection
yielding its own settled outcome (one failure does not block the others);
but re-running the sweep on a Split already EXPIRED is not a no-op: the
Split is selected again and the cancel path runs again. -/
theorem c4_expire_sweep (env : Env) (db : DB) (now : Int) :
    (∀ s, s ∈ SplitDataSource.expireSelect db now ↔
        s ∈ db.splits ∧ s.expirationDate ≤ now) ∧
    (SplitDataSource.expire env db now).1.length =
      (SplitDataSource.expireSelect db now).length := by
  constructor
  · intro s
    unfold SplitDataSource.expireSelect
    rw [List.mem_filter]
    simp
  · exact expireRun_length env (SplitDataSource.expireSelect db now) db

/-- An already-EXPIRED Split whose expirationDate is in the past. -/
def c4Split : Split :=
  { id := 4, user := 10, type := SplitType.APP, numPlaces := 4, numSeats := 4,
    ownerSeats := 0, placesLeft := 0, price := 100, status := SplitStatus.EXPIRED,
    cancelReason := none, conversation := 9, expirationDate := 0 }

def c4Db : DB := { splits := [c4Split], orders := [], conversations := [], users := [10] }

/-- C4 counterexample: re-running the sweep on a Split already EXPIRED is
not a no-op and no terminal-status filter guards the expiry query: the
EXPIRED Split is selected again, the conversation is re-frozen and a second
split-cancelled system message is posted. -/
theorem c4_expire_sweep_counterexample :
    c4Split.status = SplitStatus.EXPIRED ∧
    SplitDataSource.expireSelect c4Db 1 = [c4Split] ∧
    (SplitDataSource.expire env0 c4Db 1).2.2.messages =
      [⟨9, SplitRoomMessageTypes.SPLIT_CANCELLED⟩] ∧
    (SplitDataSource.expire env0 c4Db 1).2.2.readonlyFrozen = [4] := by decide

theorem c4_expire_sweep_witness :
    (SplitDataSource.expire env0 c4Db 1).1.length = 1 := by
  have h := (c4_expire_sweep env0 c4Db 1).2
  rw [h]
  decide

/-- C10: whenever the Split-cancel path succeeds, regardless of the terminal
status given to the Split, every Order of that Split, whatever its prior
status, ends with status OWNER_CANCELED in the resulting store, because
cancel always passes OWNER_CANCELED to bulkCancel and the batched update
matches all Orders of the Split unconditionally. -/
theorem c10_cancel_overwrites_all_orders (env : Env) (db : DB) (id : Nat)
    (reason : Option String) (status : SplitStatus) (s' : Split) (db' : DB)
    (fx : Effects)
    (h : SplitDataSource.cancel env db id reason status = (Except.ok s', db', fx)) :
    ∀ o ∈ db.orders, o.split = id →
      { o with status := OrderStatusType.owner_canceled } ∈ db'.orders := by
  intro o ho hosplit
  unfold SplitDataSource.cancel at h
  rcases hfind : db.findSplit id with _ | split
  · rw [hfind] at h
    simp at h
  · rw [hfind] at h
    rcases hbc : OrderDataSource.bulkCancel env db id OrderStatusType.owner_canceled true
      with ⟨r, attempts⟩
    rw [hbc] at h
    unfold OrderDataSource.bulkCancel at hbc
    rw [if_neg (by simp)] at hbc
    dsimp only at hbc
    rcases hbad : (db.orders.filter (fun o => o.split == id)).find? (fun o =>
        match env.refundResult o.paymentIntent with
        | some (RefundErr.other _) => true
        | _ => false) with _ | bad
    · rw [hbad] at hbc
      have hr : r = Except.ok { db with orders := db.orders.map (fun o =>
          if o.split == id then { o with status := OrderStatusType.owner_canceled } else o) } := by
        have := congrArg Prod.fst hbc
        simpa using this.symm
      subst hr
      dsimp only at h
      have hdb' : db' = ({ db with orders := db.orders.map (fun o =>
          if o.split == id then { o with status := OrderStatusType.owner_canceled } else o)
        } : DB).setSplit { split with status := status, cancelReason := reason } := by
        have := congrArg (fun t => t.2.1) h
        simpa using this.symm
      subst hdb'
      unfold DB.setSplit
      dsimp only
      have : ({ o with status := OrderStatusType.owner_canceled } : Order) ∈
          db.orders.map (fun o =>
            if o.split == id then { o with status := OrderStatusType.owner_canceled } else o) := by
        have hmem := List.mem_map_of_mem (fun o =>
          if o.split == id then { o with status := OrderStatusType.owner_canceled } else o) ho
        dsimp only at hmem
        rw [if_pos (by simpa using hosplit)] at hmem
        exact hmem
      exact this
    · rw [hbad] at hbc
      have hr : r = Except.error (Err.refundFailed bad.paymentIntent) := by
        have := congrArg Prod.fst hbc
        simpa using this.symm
      subst hr
      dsimp only at h
      simp at h

/-- A CLIENT_CANCELED Order whose Split is expired by the sweep. -/
def c10Order : Order :=
  { id := 20, client := 5, owner := 10, split := 4, numSeats := 1,
    paymentIntent := "pi20", status := OrderStatusType.client_canceled,
    metadata := ⟨0, 0⟩ }

def c10Db : DB := { splits := [c4Split], orders := [c10Order], conversations := [], users := [10] }

def c10Split2 : Split := { c4Split with status := SplitStatus.EXPIRED, cancelReason := none }

def c10Db2 : DB :=
  { splits := [c10Split2],
    orders := [{ c10Order with status := OrderStatusType.owner_canceled }],
    conversations := [], users := [10] }

def c10Fx : Effects :=
  { Effects.empty with
    refunds := [⟨"pi20", true⟩]
    readonlyFrozen := [4]
    messages := [⟨9, SplitRoomMessageTypes.SPLIT_CANCELLED⟩] }

theorem c10_cancel_overwrites_all_orders_witness :
    ({ c10Order with status := OrderStatusType.owner_canceled } : Order) ∈ c10Db2.orders :=
  c10_cancel_overwrites_all_orders env0 c10Db 4 none SplitStatus.EXPIRED c10Split2 c10Db2
    c10Fx (by decide) c10Order (by decide) (by decide)

/-- C7: bulkCancel issues one fee-reversing refund attempt per Order of the
Split (even when the batch later fails); whenever it succeeds, the resulting
store differs only by one batched status update applied to every Order of
the Split, with the Splits (hence seat counters) and Conversations (hence
membership) untouched; and whenever some refund rejects with any error other
than the already-fully-reversed one, the whole batch fails. -/
theorem c7_bulkCancel_refunds_and_batch (env : Env) (db : DB) (split : Nat)
    (st : OrderStatusType) :
    ((OrderDataSource.bulkCancel env db split st true).2 =
      (db.orders.filter (fun o => o.split == split)).map
        (fun o => (⟨o.paymentIntent, true⟩ : RefundCall))) ∧
    (∀ db2, (OrderDataSource.bulkCancel env db split st true).1 = Except.ok db2 →
      db2.splits = db.splits ∧ db2.conversations = db.conversations ∧
      db2.orders = db.orders.map (fun o =>
        if o.split == split then { o with status := st } else o)) ∧
    ((∃ o ∈ db.orders.filter (fun o => o.split == split),
        ∃ c, env.refundResult o.paymentIntent = some (RefundErr.other c)) →
      ∃ p, (OrderDataSource.bulkCancel env db split st true).1 =
        Except.error (Err.refundFailed p)) := by
  unfold OrderDataSource.bulkCancel
  rw [if_neg (by simp)]
  dsimp only
  rcases hbad : (db.orders.filter (fun o => o.split == split)).find? (fun o =>
      match env.refundResult o.paymentIntent with
      | some (RefundErr.other _) => true
      | _ => false) with _ | bad
  · rw [hbad]
    dsimp only
    refine ⟨rfl, ?_, ?_⟩
    · intro db2 h
      injection h with h
      subst h
      exact ⟨rfl, rfl, rfl⟩
    · rintro ⟨o, ho, c, hc⟩
      have hnone := List.find?_eq_none.mp hbad o ho
      rw [hc] at hnone
      simp at hnone
  · rw [hbad]
    dsimp only
    refine ⟨rfl, ?_, ?_⟩
    · intro db2 h
      exact Except.noConfusion h
    · intro _
      exact ⟨bad.paymentIntent, rfl⟩

/-- Two Orders of Split 4: one refund resolves, one is already reversed. -/
def c7OrderA : Order :=
  { id := 21, client := 5, owner := 10, split := 4, numSeats := 1,
    paymentIntent := "piA", status := OrderStatusType.paid, metadata := ⟨0, 0⟩ }

def c7OrderB : Order :=
  { id := 22, client := 6, owner := 10, split := 4, numSeats := 2,
    paymentIntent := "piB", status := OrderStatusType.paid, metadata := ⟨0, 0⟩ }

def c7Db : DB :=
  { splits := [c4Split], orders := [c7OrderA, c7OrderB], conversations := [],
    users := [10] }

def c7Env : Env :=
  { getPaymentIntent := fun _ => none
    refundResult := fun pi =>
      if pi == "piA" then some RefundErr.alreadyFullyReversed else none
    systemFee := 1/10 }

def c7OrderA2 : Order := { c7OrderA with status := OrderStatusType.owner_canceled }

def c7OrderB2 : Order := { c7OrderB with status := OrderStatusType.owner_canceled }

def c7Db2 : DB :=
  { splits := [c4Split], orders := [c7OrderA2, c7OrderB2], conversations := [],
    users := [10] }

theorem c7_bulkCancel_refunds_and_batch_witness :
    (OrderDataSource.bulkCancel c7Env c7Db 4 OrderStatusType.owner_canceled true).2 =
      [⟨"piA", true⟩, ⟨"piB", true⟩] ∧
    (OrderDataSource.bulkCancel c7Env c7Db 4 OrderStatusType.owner_canceled true).1 =
      Except.ok c7Db2 ∧
    c7Db2.orders = [c7OrderA2, c7OrderB2] ∧
    c7Db2.splits = c7Db.splits ∧ c7Db2.conversations = c7Db.conversations := by
  have h := c7_bulkCancel_refunds_and_batch c7Env c7Db 4 OrderStatusType.owner_canceled
  have hok : (OrderDataSource.bulkCancel c7Env c7Db 4 OrderStatusType.owner_canceled true).1 =
      Except.ok c7Db2 := by decide
  have h2 := h.2.1 c7Db2 hok
  exact ⟨by simpa using h.1, hok, by decide, h2.1, h2.2.1⟩

/-- C5: createOrder rejects a call whose paymentIntent is already bound to
any Order or whose client already holds a non-cancelled Order on the Split,
and a call whose target Split has fewer placesLeft than the requested
numSeats; in both cases the operation does not succeed and the store is
returned unchanged: no Order is persisted and no seat counter changes. -/
theorem c5_createOrder_rejections (env : Env) (ctx : UserCtx) (db : DB)
    (newOrderId : Nat) (order : CreateOrderInput) :
    ((db.orders.find? (fun o =>
        o.paymentIntent == order.paymentIntent ||
        (o.split == order.split && o.client == ctx.id &&
         ¬(o.status ∈ cancelledOrderStatuses)))).isSome = true →
      (OrderDataSource.create env ctx db newOrderId order).1.isSuccess = false ∧
      (OrderDataSource.create env ctx db newOrderId order).2.1 = db) ∧
    (∀ pi split,
      (db.orders.find? (fun o =>
          o.paymentIntent == order.paymentIntent ||
          (o.split == order.split && o.client == ctx.id &&
           ¬(o.status ∈ cancelledOrderStatuses)))).isSome = false →
      env.getPaymentIntent order.paymentIntent = some pi →
      db.findSplit order.split = some split →
      split.placesLeft < order.numSeats →
      (OrderDataSource.create env ctx db newOrderId order).1.isSuccess = false ∧
      (OrderDataSource.create env ctx db newOrderId order).2.1 = db) := by
  constructor
  · intro hdup
    unfold OrderDataSource.create
    dsimp only
    rw [if_pos hdup]
    exact ⟨rfl, rfl⟩
  · intro pi split hdup hpi hsp hcap
    unfold OrderDataSource.create
    dsimp only
    rw [if_neg (by rw [hdup]; exact Bool.false_ne_true)]
    rw [hpi]
    dsimp only
    rw [hsp]
    dsimp only
    rw [if_pos hcap]
    unfold OrderDataSource.createCatch
    dsimp only
    split_ifs <;> exact ⟨rfl, rfl⟩

/-- An existing paid Order of client 5 on Split 4. -/
def c5Order : Order :=
  { id := 30, client := 5, owner := 10, split := 4, numSeats := 1,
    paymentIntent := "pi30", status := OrderStatusType.paid, metadata := ⟨0, 0⟩ }

/-- An ACTIVE Split 4 with 2 places left. -/
def c5Split : Split :=
  { id := 4, user := 10, type := SplitType.APP, numPlaces := 4, numSeats := 2,
    ownerSeats := 0, placesLeft := 2, price := 100, status := SplitStatus.ACTIVE,
    cancelReason := none, conversation := 9, expirationDate := 100 }

def c5Db : DB :=
  { splits := [c5Split], orders := [c5Order], conversations := [], users := [5, 6, 10] }

/-- client 5 tries to order Split 4 again with a fresh paymentIntent. -/
def c5DupInput : CreateOrderInput := { split := 4, numSeats := 1, paymentIntent := "pi31" }

/-- client 6 asks for 3 seats while only 2 places are left. -/
def c5CapInput : CreateOrderInput := { split := 4, numSeats := 3, paymentIntent := "pi32" }

def c5Env : Env :=
  { getPaymentIntent := fun pi =>
      if pi == "pi32" then
        some { id := "pi32", status := StripePaymentStatusType.processing,
               clientSecretTag := 32 }
      else none
    refundResult := fun _ => none
    systemFee := 1/10 }

theorem c5_createOrder_rejections_witness :
    ((OrderDataSource.create c5Env ⟨5, UserRole.user⟩ c5Db 31 c5DupInput).1.isSuccess = false ∧
     (OrderDataSource.create c5Env ⟨5, UserRole.user⟩ c5Db 31 c5DupInput).2.1 = c5Db) ∧
    ((OrderDataSource.create c5Env ⟨6, UserRole.user⟩ c5Db 32 c5CapInput).1.isSuccess = false ∧
     (OrderDataSource.create c5Env ⟨6, UserRole.user⟩ c5Db 32 c5CapInput).2.1 = c5Db) := by
  have h1 := (c5_createOrder_rejections c5Env ⟨5, UserRole.user⟩ c5Db 31 c5DupInput).1
    (by decide)
  have h2 := (c5_createOrder_rejections c5Env ⟨6, UserRole.user⟩ c5Db 32 c5CapInput).2
    { id := "pi32", status := StripePaymentStatusType.processing, clientSecretTag := 32 }
    c5Split (by decide) (by decide) (by decide) (by decide)
  exact ⟨h1, h2⟩

/-- C6 (code bug): when createOrder fails before the gateway authorization
is retrieved, here on the duplicate-reservation rejection, the catch block
dereferences the unassigned paymentIntent variable and a TypeError escapes
createOrder: no structured failure envelope is returned and no compensation
call is made. -/
theorem c6_create_duplicate_throws :
    (OrderDataSource.create c5Env ⟨5, UserRole.user⟩ c5Db 31 c5DupInput).1 =
      CreateOrderOutcome.thrown Err.typeErrorPaymentIntentUndefined ∧
    (OrderDataSource.create c5Env ⟨5, UserRole.user⟩ c5Db 31 c5DupInput).2.2 =
      Effects.empty := by
  exact ⟨by decide, by decide⟩

theorem incrementNumSeats_id (s : Split) (d : Int) :
    (SplitDataSource.incrementNumSeats s d).1.id = s.id := by
  unfold SplitDataSource.incrementNumSeats
  dsimp only
  split_ifs <;> rfl

theorem incrementNumSeats_numSeats (s : Split) (d : Int) :
    (SplitDataSource.incrementNumSeats s d).1.numSeats = s.numSeats + d := by
  unfold SplitDataSource.incrementNumSeats
  dsimp only
  split_ifs <;> rfl

theorem DB.findSplit_setConversation (db : DB) (c : Conversation) (sp : Nat) :
    (db.setConversation c).findSplit sp = db.findSplit sp := rfl

theorem DB.findSplit_saveOrder (db : DB) (o : Order) (sp : Nat) :
    (db.saveOrder o).findSplit sp = db.findSplit sp := rfl

theorem DB.findConversationBySplit_setSplit (db : DB) (s : Split) (sp : Nat) :
    (db.setSplit s).findConversationBySplit sp = db.findConversationBySplit sp := rfl

theorem DB.findConversationBySplit_saveOrder (db : DB) (o : Order) (sp : Nat) :
    (db.saveOrder o).findConversationBySplit sp = db.findConversationBySplit sp := rfl

/-- C8: under the fixed gateway mapping (succeeded to PAID, canceled to
SYSTEM_CANCELED, payment_failed to PAYMENT_FAILED, nothing else mapped), a
webhook reporting canceled for an Order whose Split and conversation are
found, the Split has seats taken and the client is a member, makes the Order
SYSTEM_CANCELED, releases the Order numSeats back to the Split (numSeats
decreased, placesLeft increased), removes the client from the conversation,
and issues no refund and no authorization cancellation. -/
theorem c8_webhook_canceled (db : DB) (order : Order) (s : Split)
    (c : Conversation)
    (hs : db.findSplit order.split = some s)
    (hnz : ¬s.numSeats = 0)
    (hc : db.findConversationBySplit order.split = some c)
    (hm : c.members.any (fun m => m.user == order.client) = true) :
    (eventStatusMap StripePaymentStatusType.succeeded = some OrderStatusType.paid ∧
     eventStatusMap StripePaymentStatusType.canceled = some OrderStatusType.system_canceled ∧
     eventStatusMap StripePaymentStatusType.payment_failed =
       some OrderStatusType.payment_failed ∧
     (∀ ev, ev ∉ [StripePaymentStatusType.succeeded, StripePaymentStatusType.canceled,
        StripePaymentStatusType.payment_failed] → eventStatusMap ev = none)) ∧
    (OrderDataSource.updateOrderStatus db StripePaymentStatusType.canceled order).1 =
      Except.ok { order with status := OrderStatusType.system_canceled } ∧
    ((OrderDataSource.updateOrderStatus db StripePaymentStatusType.canceled order).2.1).findSplit
        order.split = some (SplitDataSource.incrementNumSeats s (-order.numSeats)).1 ∧
    (SplitDataSource.incrementNumSeats s (-order.numSeats)).1.numSeats =
      s.numSeats - order.numSeats ∧
    (SplitDataSource.incrementNumSeats s (-order.numSeats)).1.placesLeft =
      s.placesLeft + order.numSeats ∧
    (∃ c2, ((OrderDataSource.updateOrderStatus db StripePaymentStatusType.canceled
        order).2.1).findConversationBySplit order.split = some c2 ∧
      (∀ m ∈ c2.members, ¬m.user = order.client)) ∧
    (OrderDataSource.updateOrderStatus db StripePaymentStatusType.canceled order).2.2.refunds
      = [] ∧
    (OrderDataSource.updateOrderStatus db StripePaymentStatusType.canceled order).2.2.cancelledIntents
      = [] ∧
    (OrderDataSource.updateOrderStatus db StripePaymentStatusType.canceled order).2.2.removedParticipants
      = [(c.id, order.client)] := by
  have hexit : SplitDataSource.exit db order.split
      { order with status := OrderStatusType.system_canceled } order.client =
      Except.ok
        ((db.setSplit (SplitDataSource.incrementNumSeats s (-order.numSeats)).1).setConversation
          { c with members := c.members.filter (fun m => ¬(m.user == order.client)) },
         { Effects.empty with
           messages := (SplitDataSource.incrementNumSeats s (-order.numSeats)).2 ++
             [⟨s.conversation, SplitRoomMessageTypes.CLIENT_EXITED⟩]
           removedParticipants := [(c.id, order.client)] }) := by
    unfold SplitDataSource.exit
    rw [hs]
    dsimp only
    rw [if_neg (by simpa using hnz)]
    rw [hc]
    dsimp only
    rw [if_neg (by simp [hm])]
  have hrun : OrderDataSource.updateOrderStatus db StripePaymentStatusType.canceled order =
      (Except.ok { order with status := OrderStatusType.system_canceled },
       ((db.setSplit (SplitDataSource.incrementNumSeats s (-order.numSeats)).1).setConversation
          { c with members := c.members.filter (fun m => ¬(m.user == order.client)) }).saveOrder
         { order with status := OrderStatusType.system_canceled },
       Effects.append
         { Effects.empty with
           messages := (SplitDataSource.incrementNumSeats s (-order.numSeats)).2 ++
             [⟨s.conversation, SplitRoomMessageTypes.CLIENT_EXITED⟩]
           removedParticipants := [(c.id, order.client)] }
         (Effects.append Effects.empty Effects.empty)) := by
    unfold OrderDataSource.updateOrderStatus
    dsimp only [eventStatusMap]
    rw [if_pos (show StripePaymentStatusType.canceled ∈ exitableStatuses by decide)]
    rw [hexit]
    dsimp only
    rw [if_neg (show StripePaymentStatusType.canceled ∉ promotableStatuses by decide)]
    dsimp only
    rw [if_neg (show StripePaymentStatusType.canceled ∉ demotableStatuses by decide)]
  refine ⟨⟨rfl, rfl, rfl, ?_⟩, ?_, ?_, ?_, ?_, ?_, ?_, ?_, ?_⟩
  · intro ev hev
    cases ev <;> first | rfl | (exact absurd (by decide) hev)
  · rw [hrun]
  · rw [hrun]
    dsimp only
    rw [DB.findSplit_saveOrder, DB.findSplit_setConversation]
    exact DB.findSplit_setSplit db order.split s _ hs (incrementNumSeats_id s _)
  · rw [incrementNumSeats_numSeats]
    omega
  · rw [c2helper_placesLeft]
    omega
  · refine ⟨{ c with members := c.members.filter (fun m => ¬(m.user == order.client)) }, ?_, ?_⟩
    · rw [hrun]
      dsimp only
      rw [DB.findConversationBySplit_saveOrder]
      refine DB.findConversationBySplit_setConversation _ order.split c _ ?_ rfl rfl
      rw [DB.findConversationBySplit_setSplit]
      exact hc
    · intro m hm2 heq
      have hmf := List.mem_filter.mp hm2
      have := hmf.2
      simp [heq] at this
  · rw [hrun]
    dsimp only
    simp [Effects.append, Effects.empty]
  · rw [hrun]
    dsimp only
    simp [Effects.append, Effects.empty]
  · rw [hrun]
    dsimp only
    simp [Effects.append, Effects.empty]

/-- Witness setup: Split 4 with 2 seats taken, client 5 a full member. -/
def c8Split : Split :=
  { id := 4, user := 10, type := SplitType.APP, numPlaces := 4, numSeats := 2,
    ownerSeats := 0, placesLeft := 2, price := 100, status := SplitStatus.ACTIVE,
    cancelReason := none, conversation := 9, expirationDate := 100 }

def c8Conv : Conversation := { id := 9, split := 4, members := [⟨5, Role.full⟩] }

def c8Order : Order :=
  { id := 20, client := 5, owner := 10, split := 4, numSeats := 1,
    paymentIntent := "pi20", status := OrderStatusType.payment_pending,
    metadata := ⟨0, 0⟩ }

def c8Db : DB :=
  { splits := [c8Split], orders := [c8Order], conversations := [c8Conv], users := [5, 10] }

theorem c8_webhook_canceled_witness :
    (OrderDataSource.updateOrderStatus c8Db StripePaymentStatusType.canceled c8Order).1 =
      Except.ok { c8Order with status := OrderStatusType.system_canceled } ∧
    (SplitDataSource.incrementNumSeats c8Split (-c8Order.numSeats)).1.numSeats = 1 ∧
    (SplitDataSource.incrementNumSeats c8Split (-c8Order.numSeats)).1.placesLeft = 3 ∧
    (OrderDataSource.updateOrderStatus c8Db StripePaymentStatusType.canceled
      c8Order).2.2.refunds = [] := by
  obtain ⟨-, h1, -, h3, h4, -, h6, -, -⟩ :=
    c8_webhook_canceled c8Db c8Order c8Split c8Conv (by decide) (by decide) (by decide)
      (by decide)
  exact ⟨h1, by rw [h3]; decide, by rw [h4]; decide, h6⟩

/-- A Split priced 100 over 4 places. -/
def c9Split : Split :=
  { id := 1, user := 10, type := SplitType.APP, numPlaces := 4, numSeats := 0,
    ownerSeats := 0, placesLeft := 4, price := 100, status := SplitStatus.ACTIVE,
    cancelReason := none, conversation := 7, expirationDate := 100 }

/-- C9 counterexample: with a 10 percent fee, one seat of a 100-priced
4-place Split gives a base of 25.00, but calcAmount returns amount 2750
cents, not the 2500 cents the claim predicts: the charged and recorded
amount includes the fee on top of (price / numPlaces) x numSeats. -/
theorem c9_calcAmount_counterexample :
    OrderDataSource.calcAmount (1/10) c9Split 1 = (2750, 250) ∧
    claimedAmountCents c9Split 1 = 2500 ∧
    ¬(OrderDataSource.calcAmount (1/10) c9Split 1).1 = claimedAmountCents c9Split 1 := by
  refine ⟨?_, ?_, ?_⟩ <;>
    norm_num [OrderDataSource.calcAmount, claimedAmountCents, round2, c9Split, round_eq]

/-- The catch block never produces a success envelope: it throws or returns
a failure envelope. -/
theorem createCatch_fst_ne_success (paymentIntent : Option PaymentIntent)
    (e : Err) (db : DB) (fx : Effects) (o : Order) :
    ¬(OrderDataSource.createCatch paymentIntent e db fx).1 =
      CreateOrderOutcome.envelope (OrderMutationResponse.success o) := by
  unfold OrderDataSource.createCatch
  rcases paymentIntent with _ | pi
  · intro h
    exact CreateOrderOutcome.noConfusion h
  · dsimp only
    split_ifs <;> intro h <;> (injection h with h; exact OrderMutationResponse.noConfusion h)

/-- C9 (amended): calcAmount returns feeAmount = the configured percentage
of the per-seat amount rounded to cents, and returns as amount the claimed
(price / numPlaces) x numSeats rounded to cents PLUS that fee — the charged
amount is base plus fee, not the base alone; and a successful createOrder
records exactly this calcAmount pair on the Order metadata. -/
theorem c9_calcAmount_formula :
    (∀ (fee : ℚ) (split : Split) (numSeats : Int),
      (OrderDataSource.calcAmount fee split numSeats).1 =
        claimedAmountCents split numSeats +
          (OrderDataSource.calcAmount fee split numSeats).2) ∧
    (∀ (fee : ℚ) (split : Split) (numSeats : Int),
      (OrderDataSource.calcAmount fee split numSeats).2 =
        claimedFeeCents fee split numSeats) ∧
    (∀ env ctx db newOrderId input (s : Split) (o : Order),
      db.findSplit input.split = some s →
      (OrderDataSource.create env ctx db newOrderId input).1 =
        CreateOrderOutcome.envelope (OrderMutationResponse.success o) →
      o.metadata = ⟨(OrderDataSource.calcAmount env.systemFee s input.numSeats).1,
                    (OrderDataSource.calcAmount env.systemFee s input.numSeats).2⟩) := by
  have hcast : ∀ r : ℤ, ((r : ℚ) / 100) * 100 = (r : ℚ) := fun r =>
    div_mul_cancel₀ _ (by norm_num)
  refine ⟨?_, ?_, ?_⟩
  · intro fee split numSeats
    unfold OrderDataSource.calcAmount claimedAmountCents round2
    dsimp only
    rw [add_mul, hcast, hcast, ← Int.cast_add, Int.floor_intCast, Int.floor_intCast]
  · intro fee split numSeats
    unfold OrderDataSource.calcAmount claimedFeeCents round2
    dsimp only
    rw [hcast, Int.floor_intCast]
  · intro env ctx db newOrderId input s o hsp h
    unfold OrderDataSource.create at h
    dsimp only at h
    split at h
    all_goals try exact absurd h (createCatch_fst_ne_success _ _ _ _ _)
    split at h
    all_goals try exact absurd h (createCatch_fst_ne_success _ _ _ _ _)
    split at h
    all_goals try exact absurd h (createCatch_fst_ne_success _ _ _ _ _)
    rename_i split0 heq
    rw [hsp] at heq
    injection heq with heq
    subst heq
    split at h
    all_goals try exact absurd h (createCatch_fst_ne_success _ _ _ _ _)
    split at h
    all_goals try exact absurd h (createCatch_fst_ne_success _ _ _ _ _)
    split at h
    all_goals try exact absurd h (createCatch_fst_ne_success _ _ _ _ _)
    split at h
    all_goals try exact absurd h (createCatch_fst_ne_success _ _ _ _ _)
    dsimp only at h
    injection h with h
    injection h with h
    subst h
    rfl

def c9Conv : Conversation := { id := 7, split := 1, members := [⟨10, Role.full⟩] }

def c9Db : DB :=
  { splits := [c9Split], orders := [], conversations := [c9Conv], users := [6, 10] }

def c9Env : Env :=
  { getPaymentIntent := fun pi =>
      if pi == "pi40" then
        some { id := "pi40", status := StripePaymentStatusType.processing,
               clientSecretTag := 40 }
      else none
    refundResult := fun _ => none
    systemFee := 1/10 }

def c9Input : CreateOrderInput := { split := 1, numSeats := 1, paymentIntent := "pi40" }

/-- The Order a successful createOrder of one seat on c9Split persists. -/
def c9Order : Order :=
  { id := 40, client := 6, owner := 10, split := 1, numSeats := 1,
    paymentIntent := "pi40", status := OrderStatusType.payment_pending,
    metadata := ⟨(OrderDataSource.calcAmount (1/10) c9Split 1).1,
                 (OrderDataSource.calcAmount (1/10) c9Split 1).2⟩ }

theorem c9_calcAmount_formula_witness :
    c9Order.metadata = ⟨2750, 250⟩ ∧
    (OrderDataSource.calcAmount (1/10) c9Split 1).1 =
      claimedAmountCents c9Split 1 + (OrderDataSource.calcAmount (1/10) c9Split 1).2 := by
  have h := c9_calcAmount_formula.2.2 c9Env ⟨6, UserRole.user⟩ c9Db 40 c9Input c9Split
    c9Order (by decide) (by rfl)
  refine ⟨?_, c9_calcAmount_formula.1 (1/10) c9Split 1⟩
  rw [h]
  show (⟨(OrderDataSource.calcAmount (1/10) c9Split 1).1,
         (OrderDataSource.calcAmount (1/10) c9Split 1).2⟩ : OrderMetaData) = ⟨2750, 250⟩
  have h1 : OrderDataSource.calcAmount ((1:ℚ)/10) c9Split 1 = (2750, 250) := by
    norm_num [OrderDataSource.calcAmount, round2, c9Split, round_eq]
  rw [h1]
